import Mathlib

/-!
Verification of the AutoCollectNews ingestion pipeline (src/main.py).

The Python pipeline is shallowly embedded: pure fragments become Lean
functions, the SQLite table becomes a list of rows with a URL-uniqueness
check, network calls (search, fetch, the two AI stages) become oracle
functions passed in explicitly, and exceptions become Option / sum results.
-/

set_option maxRecDepth 16384

namespace AutoCollectNews

/-- Python truthiness of a string: empty means false. -/
def strEmpty (s : String) : Bool := s.toList.isEmpty

/-- Python str.startswith, on the character lists. -/
def isPrefixB : List Char → List Char → Bool
  | [], _ => true
  | _ :: _, [] => false
  | a :: as, b :: bs => a == b && isPrefixB as bs

/-- Python str.endswith, on the character lists. -/
def endsWithB (s suffix : String) : Bool :=
  isPrefixB suffix.toList.reverse s.toList.reverse

/-- Python str.lower (ASCII case folding, which is all the blacklist
extensions need). -/
def toLowerStr (s : String) : String := String.mk (s.toList.map Char.toLower)

/-- Data model of one persisted article, after NewsArticle in src/main.py
(the created_at timestamp is assigned by the store and carries no logic,
so it is omitted). value_score is an Int: Python ints are unbounded. -/
structure NewsArticle where
  title : String
  url : String
  source : String
  publish_date : String
  author : String
  sub_category : String
  category : String
  summary : String
  keywords : String
  value_score : Int
  value_reason : String
deriving Repr, DecidableEq

/-- One search task, after SearchTask in src/main.py. -/
structure SearchTask where
  query : String
  sub_category : String
  type : String
deriving Repr, DecidableEq

/-- The articles table: one row per article, in insertion order. -/
abbrev DB := List NewsArticle

/-- The url column of the table; the schema declares url TEXT UNIQUE. -/
def dbUrls (db : DB) : List String := db.map (fun a => a.url)

/-- One INSERT INTO articles: the UNIQUE constraint on url makes the insert
raise sqlite3.IntegrityError when the url is already present, which
save_articles catches and logs; the row is skipped and the count is 0. -/
def insertArticle (db : DB) (a : NewsArticle) : DB × Nat :=
  if a.url ∈ dbUrls db then (db, 0) else (db ++ [a], 1)

/-- DatabaseManager.save_articles (src/main.py lines 150-172): insert each
article in order, counting successful inserts; a per-row uniqueness
violation is caught, logged and skipped, never raised to the caller. -/
def save_articles (db : DB) : List NewsArticle → DB × Nat
  | [] => (db, 0)
  | a :: rest =>
    let step := insertArticle db a
    let restRun := save_articles step.1 rest
    (restRun.1, step.2 + restRun.2)

theorem dbUrls_append (db : DB) (a : NewsArticle) :
    dbUrls (db ++ [a]) = dbUrls db ++ [a.url] := by
  simp [dbUrls]

theorem dbUrls_insertArticle_mono (db : DB) (a : NewsArticle) (x : String)
    (hx : x ∈ dbUrls db) : x ∈ dbUrls (insertArticle db a).1 := by
  unfold insertArticle
  split
  · exact hx
  · rw [dbUrls_append]; exact List.mem_append_left _ hx

theorem dbUrls_save_mono (arts : List NewsArticle) (db : DB) (x : String)
    (hx : x ∈ dbUrls db) : x ∈ dbUrls (save_articles db arts).1 := by
  induction arts generalizing db with
  | nil => exact hx
  | cons a rest ih =>
    exact ih (insertArticle db a).1 (dbUrls_insertArticle_mono db a x hx)

theorem mem_dbUrls_save (arts : List NewsArticle) (db : DB) (a : NewsArticle)
    (ha : a ∈ arts) : a.url ∈ dbUrls (save_articles db arts).1 := by
  induction arts generalizing db with
  | nil => cases ha
  | cons b rest ih =>
    show a.url ∈ dbUrls (save_articles (insertArticle db b).1 rest).1
    cases ha with
    | head =>
      apply dbUrls_save_mono
      unfold insertArticle
      split
      · assumption
      · rw [dbUrls_append]; exact List.mem_append_right _ (List.mem_singleton.mpr rfl)
    | tail _ hmem => exact ih (insertArticle db b).1 hmem

theorem insertArticle_noop (db : DB) (a : NewsArticle)
    (h : a.url ∈ dbUrls db) : insertArticle db a = (db, 0) := by
  unfold insertArticle
  split
  · rfl
  · exact absurd h (by assumption)

theorem save_articles_noop (arts : List NewsArticle) (db : DB)
    (h : ∀ a ∈ arts, a.url ∈ dbUrls db) : save_articles db arts = (db, 0) := by
  induction arts generalizing db with
  | nil => rfl
  | cons a rest ih =>
    unfold save_articles
    rw [insertArticle_noop db a (h a (List.mem_cons_self a rest))]
    have hrest := ih db (fun b hb => h b (List.mem_cons_of_mem a hb))
    simp [hrest]

/-- Claim C1: calling save_articles a second time with the same article set
leaves the persisted table (hence its row count) exactly as it was after the
first call, and the second call inserts 0 rows: a row whose URL already
exists is skipped via the caught uniqueness violation, so the batch insert
is idempotent under URL collision and a duplicate never errors the batch. -/
theorem save_articles_idempotent (db : DB) (arts : List NewsArticle) :
    save_articles (save_articles db arts).1 arts = ((save_articles db arts).1, 0) :=
  save_articles_noop arts (save_articles db arts).1
    (fun a ha => mem_dbUrls_save arts db a ha)

/-- SearchStrategyManager.DOMAIN_BLACKLIST (src/main.py lines 195-207). -/
def DOMAIN_BLACKLIST : List String :=
  [("youtube.com"), ("bilibili.com"), ("facebook.com"), ("twitter.com"),
   ("instagram.com"), ("pinterest.com"), ("linkedin.com"), ("reddit.com"),
   ("tiktok.com"), ("quora.com"), ("zhihu.com"), ("sohu.com"), ("theverge.com"),
   ("amazon.com"), ("tmall.com"), ("jd.com"), ("taobao.com"), ("aliexpress.com"),
   ("vmall.com"), ("shutterstock.com"), ("adobestock.com"), ("gettyimages.com"),
   ("behance.net"), ("yohohongkong.com"), ("bukshisha.com"),
   ("drselimguldiken.com"), ("winbo4x4.com"), ("tortillasdurum.com"),
   ("centrooleodinamica.com"), ("queenstreetonline.com"), ("shoplc.com"),
   ("i5a6.com"), ("revnabio.com"), ("wizevo.com"), ("huadicn.com"),
   ("manuals.plus"), ("inspire.com"), ("medestheticsmag.com"),
   ("fittopfactory.com")]

/-- SearchStrategyManager.EXTENSION_BLACKLIST (src/main.py line 209). -/
def EXTENSION_BLACKLIST : List String :=
  [(".pdf"), (".jpg"), (".jpeg"), (".png"), (".gif"), (".zip"), (".rar"),
   (".docx"), (".xlsx"), (".mp4"), (".avi")]

/-- Python `needle in haystack` substring test on character lists. -/
def isInfixB (needle : List Char) : List Char → Bool
  | [] => needle.isEmpty
  | c :: rest => isPrefixB needle (c :: rest) || isInfixB needle rest

/-- Split a character list at the first character satisfying p: returns
(before, from-that-character-on). -/
def splitAtFirst (p : Char → Bool) : List Char → List Char × List Char
  | [] => ([], [])
  | c :: rest =>
    if p c then ([], c :: rest)
    else
      let r := splitAtFirst p rest
      (c :: r.1, r.2)

/-- The (netloc, path) pair produced by urllib.parse.urlparse. -/
structure ParsedUrl where
  netloc : String
  path : String
deriving Repr, DecidableEq

/-- urllib.parse.urlparse restricted to what is_url_blacklisted reads, for a
url already known to start with http:// or https://: netloc is everything
after the scheme separator up to the first of / ? #, the path runs from
there up to the first of ? #. CPython raises ValueError ("Invalid IPv6
URL") when the netloc contains one bracket of a [ ] pair without the
other; that raise is modelled as none. -/
def urlparseHttp (url : String) : Option ParsedUrl :=
  let rest :=
    if isPrefixB ("http://").toList url.toList then url.toList.drop 7
    else url.toList.drop 8
  let netlocSplit := splitAtFirst (fun c => c == '/' || c == '?' || c == '#') rest
  let netloc := netlocSplit.1
  if (netloc.contains '[') != (netloc.contains ']') then none
  else
    let pathSplit := splitAtFirst (fun c => c == '?' || c == '#') netlocSplit.2
    some ⟨String.mk netloc, String.mk pathSplit.1⟩

/-- SearchStrategyManager.is_url_blacklisted (src/main.py lines 227-250):
reject when the url is empty or lacks an http/https scheme; parse the url
(treating a parse failure as blacklisted — the except branch); reject when
some blacklist entry occurs as a substring of the netloc, or the
lower-cased path ends with a blacklisted extension; otherwise accept. -/
def is_url_blacklisted (url : String) : Bool :=
  if strEmpty url
      || !(isPrefixB ("http://").toList url.toList
           || isPrefixB ("https://").toList url.toList) then
    true
  else
    match urlparseHttp url with
    | none => true
    | some parsed =>
      if DOMAIN_BLACKLIST.any (fun d => isInfixB d.toList parsed.netloc.toList) then
        true
      else if EXTENSION_BLACKLIST.any
          (fun ext => endsWithB (toLowerStr parsed.path) ext) then
        true
      else
        false

/-- The Blacklist Filter contract as the spec words it: a flat disjunction
of the four rejection conditions (missing/unrecognized scheme; parse
failure, fail-closed; blacklisted domain substring of the host; blacklisted
file extension of the lower-cased path). -/
def blacklistSpec (url : String) : Bool :=
  (strEmpty url
      || !(isPrefixB ("http://").toList url.toList
           || isPrefixB ("https://").toList url.toList))
  || (urlparseHttp url).isNone
  || (match urlparseHttp url with
      | none => false
      | some parsed =>
        DOMAIN_BLACKLIST.any (fun d => isInfixB d.toList parsed.netloc.toList)
        || EXTENSION_BLACKLIST.any
             (fun ext => endsWithB (toLowerStr parsed.path) ext))

/-- Claim C5: is_url_blacklisted returns true exactly when the url is empty
or lacks a recognized http/https scheme, or parsing fails (fail-closed), or
the parsed host contains a blacklisted domain as a substring, or the
lower-cased path ends with a blacklisted extension. The function is total
(the Python except branch is the none case of urlparseHttp), so it never
raises. -/
theorem is_url_blacklisted_spec (url : String) :
    is_url_blacklisted url = blacklistSpec url := by
  unfold is_url_blacklisted blacklistSpec
  cases hs : (strEmpty url
      || !(isPrefixB ("http://").toList url.toList
           || isPrefixB ("https://").toList url.toList))
  · cases hp : urlparseHttp url with
    | none => simp
    | some parsed =>
      simp only [Bool.false_or, Option.isNone_some]
      cases hd : DOMAIN_BLACKLIST.any (fun d => isInfixB d.toList parsed.netloc.toList) with
      | true => simp [hd]
      | false =>
        cases he : EXTENSION_BLACKLIST.any
            (fun ext => endsWithB (toLowerStr parsed.path) ext) with
        | true => simp [hd, he]
        | false => simp [hd, he]
  · simp

/-- Stage-one AI response, after DeepSeekClient.analyze_article: a JSON
object read only through dict.get, so each expected key may be absent.
extraKeys records whether the object carries any keys besides the three
that are read; it is needed because the Python gate `if not analysis`
tests the truthiness of the dict, and the empty object is falsy. -/
structure Analysis where
  category : Option String
  summary : Option String
  keywords : Option (List String)
  extraKeys : Bool
deriving Repr, DecidableEq

/-- Python truthiness of the stage-one dict: a dict is truthy exactly when
it has at least one key; the empty object is falsy. -/
def Analysis.truthy (an : Analysis) : Bool :=
  an.category.isSome || an.summary.isSome || an.keywords.isSome || an.extraKeys

/-- Stage-two AI response, after DeepSeekClient.evaluate_value: a JSON
object read only through dict.get, so each expected key may be absent.
No truthiness field is needed here: the Python ternary's falsy branch
yields (0, the evaluation-failed reason), which coincides with what the
truthy branch's dict.get defaults yield on an object missing both keys,
so an empty stage-two object behaves exactly like one with no tracked
keys. -/
structure Evaluation where
  score : Option Int
  reason : Option String
deriving Repr, DecidableEq

/-- What process_single_article reads from a fetched newspaper Article:
the extracted text, and article.publish_date pre-formatted with
strftime when it is a datetime (none models both an absent value and a
non-datetime value, which the isinstance check rejects alike). -/
structure FetchedArticle where
  text : String
  publishDateFmt : Option String
deriving Repr, DecidableEq

/-- One Google search result item, keeping the fields process_single_article
and extract_metadata read; each is an Option because the source reads them
with dict.get. -/
structure SearchResult where
  link : Option String
  title : Option String
  displayLink : Option String
  publishDateMeta : Option String
  authorMeta : Option String
deriving Repr, DecidableEq

/-- The network-facing collaborators of ArticleProcessor, as oracles:
fetch_article is the result of ArticleProcessor.fetch_article (none models
exhausted retries), analyze_article and evaluate_value are the two
DeepSeekClient stages (none models transport failure or malformed JSON). -/
structure Env where
  fetch_article : String → Option FetchedArticle
  analyze_article : String → String → Option Analysis
  evaluate_value : String → String → Option Evaluation

/-- ArticleProcessor.extract_metadata (src/main.py lines 375-380): read the
published-time and author metatags, defaulting both to the unknown marker. -/
def extract_metadata (sr : SearchResult) : String × String :=
  (sr.publishDateMeta.getD ("未知"), sr.authorMeta.getD ("未知"))

/-- Python publish_date.split(given the separator T)[0]. -/
def splitT (s : String) : String :=
  match s.splitOn ("T") with
  | [] => ("")
  | x :: _ => x

/-- ArticleProcessor.process_single_article (src/main.py lines 382-418):
drop the candidate when the link is missing/empty or blacklisted, when the
fetch failed or the text is empty or shorter than 200 characters, or when
stage one returned null, a falsy (empty) object, or the unrelated
sentinel; otherwise build the
NewsArticle, defaulting every missing AI key, and defaulting score/reason
when stage two returned null. -/
def process_single_article (env : Env) (sr : SearchResult) (task : SearchTask) :
    Option NewsArticle :=
  match sr.link with
  | none => none
  | some url =>
    if strEmpty url || is_url_blacklisted url then none
    else
      let title := sr.title.getD ("")
      let display_link := sr.displayLink.getD ("")
      let meta := extract_metadata sr
      match env.fetch_article url with
      | none => none
      | some article =>
        if article.text.length = 0 ∨ article.text.length < 200 then none
        else
          let publish_date :=
            if strEmpty meta.1 = false ∧ meta.1 ≠ ("未知") then splitT meta.1
            else
              match article.publishDateFmt with
              | some d => d
              | none => ("未知")
          match env.analyze_article title article.text with
          | none => none
          | some analysis =>
            if analysis.truthy = false ∨ analysis.category = some ("无关") then none
            else
              let summary := analysis.summary.getD ("")
              let evaluation := env.evaluate_value summary task.sub_category
              let value_score : Int :=
                match evaluation with
                | some e => e.score.getD 0
                | none => 0
              let value_reason :=
                match evaluation with
                | some e => e.reason.getD ("评估失败")
                | none => ("评估失败")
              some { title := title, url := url, source := display_link,
                     publish_date := publish_date, author := meta.2,
                     sub_category := task.sub_category,
                     category := analysis.category.getD ("其他"),
                     summary := summary,
                     keywords := String.intercalate (", ") (analysis.keywords.getD []),
                     value_score := value_score, value_reason := value_reason }

theorem isEmpty_false_of_not_blacklisted (url : String)
    (h : is_url_blacklisted url = false) : strEmpty url = false := by
  cases he : strEmpty url with
  | false => rfl
  | true =>
    exfalso
    unfold is_url_blacklisted at h
    rw [he] at h
    simp at h

/-- Claim C3: a candidate whose stage-one classification returns null, or
returns the unrelated sentinel category, yields no article from
process_single_article, so it can never reach the Persistence Store. -/
theorem unrelated_never_persisted (env : Env) (sr : SearchResult)
    (task : SearchTask) (url : String) (article : FetchedArticle) (an : Analysis)
    (hl : sr.link = some url)
    (hf : env.fetch_article url = some article)
    (hcls : env.analyze_article (sr.title.getD ("")) article.text = none ∨
      (env.analyze_article (sr.title.getD ("")) article.text = some an ∧
        an.category = some ("无关"))) :
    process_single_article env sr task = none := by
  unfold process_single_article
  simp only [hl]
  split
  · rfl
  · simp only [hf]
    split
    · rfl
    · cases hcls with
      | inl hnone => simp only [hnone]
      | inr hunrel =>
        simp only [hunrel.1]
        rw [if_pos (Or.inr hunrel.2)]

/-- A 200-character extracted text, long enough to pass the length gate. -/
def longText : String := String.mk (List.replicate 200 'a')

/-- A fetched article with passing text and no parsed publish date. -/
def artLong : FetchedArticle := ⟨longText, none⟩

/-- A concrete search task. -/
def task0 : SearchTask := ⟨("q"), ("按摩仪"), ("技术创新")⟩

/-- A concrete search result whose link is not blacklisted. -/
def sr0 : SearchResult :=
  ⟨some ("http://example.org/a"), some ("t"), some ("example.org"), none, none⟩

/-- A well-formed stage-one response with a relevant category. -/
def analysisOk : Analysis := ⟨some ("技术创新"), some ("s"), some [("k")], false⟩

/-- Oracles where stage one returns the unrelated sentinel. -/
def envUnrelated : Env :=
  ⟨fun _ => some artLong, fun _ _ => some ⟨some ("无关"), none, none, false⟩,
   fun _ _ => none⟩

theorem unrelated_never_persisted_witness :
    sr0.link = some ("http://example.org/a") ∧
    envUnrelated.fetch_article ("http://example.org/a") = some artLong ∧
    (envUnrelated.analyze_article (sr0.title.getD ("")) artLong.text = none ∨
      (envUnrelated.analyze_article (sr0.title.getD ("")) artLong.text =
          some ⟨some ("无关"), none, none, false⟩ ∧
        (some ("无关") : Option String) = some ("无关"))) ∧
    process_single_article envUnrelated sr0 task0 = none :=
  ⟨rfl, rfl, Or.inr ⟨rfl, rfl⟩,
    unrelated_never_persisted envUnrelated sr0 task0 ("http://example.org/a")
      artLong ⟨some ("无关"), none, none, false⟩ rfl rfl (Or.inr ⟨rfl, rfl⟩)⟩

/-- Claim C6: when stage-two scoring returns null, the candidate is still
accepted: process_single_article yields an article whose value_score is the
interval minimum 0 and whose value_reason is the evaluation-failed default,
while the stage-one category, summary and keywords are kept. The truthiness
hypothesis states that the stage-one object is non-empty, which any
candidate that reaches stage two satisfies (a falsy stage-one object is
rejected at the relevance gate, before scoring). -/
theorem scoring_null_still_accepted (env : Env) (sr : SearchResult)
    (task : SearchTask) (url : String) (article : FetchedArticle) (an : Analysis)
    (hl : sr.link = some url)
    (hbl : is_url_blacklisted url = false)
    (hf : env.fetch_article url = some article)
    (hlen : 200 ≤ article.text.length)
    (han : env.analyze_article (sr.title.getD ("")) article.text = some an)
    (htr : an.truthy = true)
    (hcat : an.category ≠ some ("无关"))
    (heval : env.evaluate_value (an.summary.getD ("")) task.sub_category = none) :
    (process_single_article env sr task).map NewsArticle.value_score = some 0 ∧
    (process_single_article env sr task).map NewsArticle.value_reason =
      some ("评估失败") ∧
    (process_single_article env sr task).map NewsArticle.category =
      some (an.category.getD ("其他")) ∧
    (process_single_article env sr task).map NewsArticle.summary =
      some (an.summary.getD ("")) ∧
    (process_single_article env sr task).map NewsArticle.keywords =
      some (String.intercalate (", ") (an.keywords.getD [])) := by
  have hemp := isEmpty_false_of_not_blacklisted url hbl
  unfold process_single_article
  simp only [hl]
  split
  next hcond => rw [hemp, hbl] at hcond; simp at hcond
  next hcond =>
    simp only [hf]
    have hlen2 : ¬(article.text.length = 0 ∨ article.text.length < 200) := by omega
    rw [if_neg hlen2]
    simp only [han]
    have hgate : ¬(an.truthy = false ∨ an.category = some ("无关")) := by
      rintro (hft | hcc)
      · rw [htr] at hft; cases hft
      · exact hcat hcc
    rw [if_neg hgate]
    simp only [heval]
    exact ⟨rfl, rfl, rfl, rfl, rfl⟩

/-- Oracles where stage two always fails. -/
def envEvalNull : Env :=
  ⟨fun _ => some artLong, fun _ _ => some analysisOk, fun _ _ => none⟩

theorem scoring_null_still_accepted_witness :
    sr0.link = some ("http://example.org/a") ∧
    is_url_blacklisted ("http://example.org/a") = false ∧
    envEvalNull.fetch_article ("http://example.org/a") = some artLong ∧
    200 ≤ artLong.text.length ∧
    envEvalNull.analyze_article (sr0.title.getD ("")) artLong.text = some analysisOk ∧
    analysisOk.truthy = true ∧
    analysisOk.category ≠ some ("无关") ∧
    envEvalNull.evaluate_value (analysisOk.summary.getD ("")) task0.sub_category = none ∧
    ((process_single_article envEvalNull sr0 task0).map NewsArticle.value_score = some 0 ∧
     (process_single_article envEvalNull sr0 task0).map NewsArticle.value_reason =
       some ("评估失败") ∧
     (process_single_article envEvalNull sr0 task0).map NewsArticle.category =
       some (analysisOk.category.getD ("其他")) ∧
     (process_single_article envEvalNull sr0 task0).map NewsArticle.summary =
       some (analysisOk.summary.getD ("")) ∧
     (process_single_article envEvalNull sr0 task0).map NewsArticle.keywords =
       some (String.intercalate (", ") (analysisOk.keywords.getD []))) :=
  ⟨rfl, by decide, rfl, by decide, rfl, by decide, by decide, rfl,
    scoring_null_still_accepted envEvalNull sr0 task0 ("http://example.org/a")
      artLong analysisOk rfl (by decide) rfl (by decide) rfl (by decide)
      (by decide) rfl⟩

/-- Oracles where stage one returns the empty JSON object: no keys at all,
so the dict is falsy. -/
def envEmptyDict : Env :=
  ⟨fun _ => some artLong, fun _ _ => some ⟨none, none, none, false⟩,
   fun _ _ => some ⟨some 55, some ("r")⟩⟩

/-- Claim C10, counterexample: the empty stage-one object — a JSON object
missing every expected key — is rejected, not accepted: the Python gate
tests the truthiness of the dict, and the empty dict is falsy, so it is
discarded exactly like a null response; no defaulting happens for it. -/
theorem empty_stage_one_rejected_cex :
    envEmptyDict.analyze_article (sr0.title.getD ("")) artLong.text =
      some ⟨none, none, none, false⟩ ∧
    process_single_article envEmptyDict sr0 task0 = none :=
  ⟨rfl, by decide⟩

/-- Claim C10, amended: a truthy (non-empty) stage-one object missing the
category, summary and keywords keys is still accepted: the category
defaults to the catch-all, the summary defaults to the empty string and is
what stage two is called with (the value fields are exactly those derived
from evaluating the empty summary), and the keywords default to the empty
string — key presence is not validated. Only the empty object, being
falsy, is rejected like null. -/
theorem missing_keys_still_accepted (env : Env) (sr : SearchResult)
    (task : SearchTask) (url : String) (article : FetchedArticle)
    (hl : sr.link = some url)
    (hbl : is_url_blacklisted url = false)
    (hf : env.fetch_article url = some article)
    (hlen : 200 ≤ article.text.length)
    (han : env.analyze_article (sr.title.getD ("")) article.text =
      some ⟨none, none, none, true⟩) :
    (process_single_article env sr task).map NewsArticle.category = some ("其他") ∧
    (process_single_article env sr task).map NewsArticle.summary = some ("") ∧
    (process_single_article env sr task).map NewsArticle.keywords = some ("") ∧
    (process_single_article env sr task).map NewsArticle.value_score =
      some (match env.evaluate_value ("") task.sub_category with
            | some e => e.score.getD 0
            | none => 0) ∧
    (process_single_article env sr task).map NewsArticle.value_reason =
      some (match env.evaluate_value ("") task.sub_category with
            | some e => e.reason.getD ("评估失败")
            | none => ("评估失败")) := by
  have hemp := isEmpty_false_of_not_blacklisted url hbl
  unfold process_single_article
  simp only [hl]
  split
  next hcond => rw [hemp, hbl] at hcond; simp at hcond
  next hcond =>
    simp only [hf]
    have hlen2 : ¬(article.text.length = 0 ∨ article.text.length < 200) := by omega
    rw [if_neg hlen2]
    simp only [han]
    rw [if_neg (by decide :
      ¬((⟨none, none, none, true⟩ : Analysis).truthy = false ∨
        (⟨none, none, none, true⟩ : Analysis).category = some ("无关")))]
    exact ⟨rfl, rfl, rfl, rfl, rfl⟩

/-- Oracles where stage one returns a truthy object (it carries some other
key) in which every expected key is missing. -/
def envNoKeys : Env :=
  ⟨fun _ => some artLong, fun _ _ => some ⟨none, none, none, true⟩,
   fun _ _ => some ⟨some 55, some ("r")⟩⟩

theorem missing_keys_still_accepted_witness :
    sr0.link = some ("http://example.org/a") ∧
    is_url_blacklisted ("http://example.org/a") = false ∧
    envNoKeys.fetch_article ("http://example.org/a") = some artLong ∧
    200 ≤ artLong.text.length ∧
    envNoKeys.analyze_article (sr0.title.getD ("")) artLong.text =
      some ⟨none, none, none, true⟩ ∧
    ((process_single_article envNoKeys sr0 task0).map NewsArticle.category =
       some ("其他") ∧
     (process_single_article envNoKeys sr0 task0).map NewsArticle.summary =
       some ("") ∧
     (process_single_article envNoKeys sr0 task0).map NewsArticle.keywords =
       some ("") ∧
     (process_single_article envNoKeys sr0 task0).map NewsArticle.value_score =
       some (match envNoKeys.evaluate_value ("") task0.sub_category with
             | some e => e.score.getD 0
             | none => 0) ∧
     (process_single_article envNoKeys sr0 task0).map NewsArticle.value_reason =
       some (match envNoKeys.evaluate_value ("") task0.sub_category with
             | some e => e.reason.getD ("评估失败")
             | none => ("评估失败"))) :=
  ⟨rfl, by decide, rfl, by decide, rfl,
    missing_keys_still_accepted envNoKeys sr0 task0 ("http://example.org/a")
      artLong rfl (by decide) rfl (by decide) rfl⟩

/-- Oracles whose stage-two score is 150, outside the declared 0-100
interval of the scoring prompt. -/
def envScore150 : Env :=
  ⟨fun _ => some artLong, fun _ _ => some analysisOk,
   fun _ _ => some ⟨some 150, some ("r")⟩⟩

/-- Claim C2, counterexample: an AI stage-two score of 150, outside the
declared 0-100 interval, is accepted and carried into the article record
unchanged — process_single_article performs no clamping, so the claim that
out-of-range output is clamped or defaulted before persistence is false. -/
theorem value_score_not_clamped_cex :
    (process_single_article envScore150 sr0 task0).map NewsArticle.value_score =
      some 150 ∧
    ¬((150 : Int) ≤ 100) := by
  constructor
  · rfl
  · decide

/-- Claim C2, amended: the persisted value_score equals the raw stage-two
score whenever the evaluation response carries a score key, and is
defaulted to the interval minimum 0 (with the evaluation-failed reason)
only when the stage-two response is null or lacks the score key; no range
check or clamping is applied. -/
theorem value_score_raw_or_default (env : Env) (sr : SearchResult)
    (task : SearchTask) (a : NewsArticle)
    (h : process_single_article env sr task = some a) :
    a.value_score = (match env.evaluate_value a.summary task.sub_category with
                     | some e => e.score.getD 0
                     | none => 0) ∧
    (env.evaluate_value a.summary task.sub_category = none →
      a.value_score = 0 ∧ a.value_reason = ("评估失败")) := by
  unfold process_single_article at h
  cases hsl : sr.link with
  | none => rw [hsl] at h; exact Option.noConfusion h
  | some url =>
    simp only [hsl] at h
    split at h
    · exact Option.noConfusion h
    · cases hf : env.fetch_article url with
      | none =>
        rw [hf] at h
        exact Option.noConfusion h
      | some article =>
        simp only [hf] at h
        split at h
        · exact Option.noConfusion h
        · cases han : env.analyze_article (sr.title.getD ("")) article.text with
          | none =>
            rw [han] at h
            exact Option.noConfusion h
          | some an =>
            simp only [han] at h
            split at h
            · exact Option.noConfusion h
            · have hrec := Option.some.inj h
              subst hrec
              cases hev : env.evaluate_value (an.summary.getD ("")) task.sub_category with
              | none => simp [hev]
              | some e => simp [hev]

/-- The concrete article produced for the C2 counterexample inputs. -/
def cexArticle : NewsArticle :=
  ⟨("t"), ("http://example.org/a"), ("example.org"), ("未知"), ("未知"),
   ("按摩仪"), ("技术创新"), ("s"), ("k"), 150, ("r")⟩

theorem value_score_raw_or_default_witness :
    process_single_article envScore150 sr0 task0 = some cexArticle ∧
    (cexArticle.value_score =
       (match envScore150.evaluate_value cexArticle.summary task0.sub_category with
        | some e => e.score.getD 0
        | none => 0) ∧
     (envScore150.evaluate_value cexArticle.summary task0.sub_category = none →
       cexArticle.value_score = 0 ∧ cexArticle.value_reason = ("评估失败"))) :=
  ⟨by decide,
    value_score_raw_or_default envScore150 sr0 task0 cexArticle (by decide)⟩

/-- AppConfig.RETRY_COUNT (src/main.py line 76). -/
def RETRY_COUNT : Nat := 3

/-- AppConfig.RETRY_DELAY in seconds (src/main.py line 77). -/
def RETRY_DELAY : Nat := 2

/-- Outcome of one download-and-parse attempt inside fetch_article's try
block: raised models any exception from Article download/parse, ok models
a return (whatever the extracted text, including empty). -/
inductive AttemptResult where
  | raised
  | ok (article : FetchedArticle)
deriving Repr, DecidableEq

/-- Observable behaviour of one fetch_article call: its returned value, how
many attempts were made, and how many sleep calls of RETRY_DELAY seconds
were executed. -/
structure FetchRun where
  result : Option FetchedArticle
  attempts : Nat
  sleeps : Nat
deriving Repr, DecidableEq

/-- The loop body of ArticleProcessor.fetch_article (src/main.py lines
360-373): at attempt index `attempt` with `fuel` iterations of
range(RETRY_COUNT) left, return the article as soon as an attempt does not
raise; on an exception sleep RETRY_DELAY when attempt < RETRY_COUNT - 1
and move to the next attempt; fall through to none when the range is
exhausted. -/
def fetchFrom (oracle : Nat → AttemptResult) : Nat → Nat → FetchRun
  | _, 0 => ⟨none, 0, 0⟩
  | attempt, fuel + 1 =>
    match oracle attempt with
    | AttemptResult.ok article => ⟨some article, 1, 0⟩
    | AttemptResult.raised =>
      let s := if attempt < RETRY_COUNT - 1 then 1 else 0
      let restRun := fetchFrom oracle (attempt + 1) fuel
      ⟨restRun.result, restRun.attempts + 1, restRun.sleeps + s⟩

/-- ArticleProcessor.fetch_article: run the retry loop from attempt 0 with
the full RETRY_COUNT budget. -/
def fetch_article_retry (oracle : Nat → AttemptResult) : FetchRun :=
  fetchFrom oracle 0 RETRY_COUNT

theorem fetch_article_retry_spec (oracle : Nat → AttemptResult) :
    fetch_article_retry oracle =
      match oracle 0 with
      | AttemptResult.ok a => ⟨some a, 1, 0⟩
      | AttemptResult.raised =>
        match oracle 1 with
        | AttemptResult.ok a => ⟨some a, 2, 1⟩
        | AttemptResult.raised =>
          match oracle 2 with
          | AttemptResult.ok a => ⟨some a, 3, 2⟩
          | AttemptResult.raised => ⟨none, 3, 2⟩ := by
  unfold fetch_article_retry RETRY_COUNT
  cases h0 : oracle 0 with
  | ok a => simp [fetchFrom, RETRY_COUNT, h0]
  | raised =>
    cases h1 : oracle 1 with
    | ok a => simp [fetchFrom, RETRY_COUNT, h0, h1]
    | raised =>
      cases h2 : oracle 2 with
      | ok a => simp [fetchFrom, RETRY_COUNT, h0, h1, h2]
      | raised => simp [fetchFrom, RETRY_COUNT, h0, h1, h2]

/-- Claim C7, counterexample: an attempt that returns without raising but
with an empty extracted text ends the retry loop immediately — one attempt,
no retry — and the empty article is handed back to the caller; so the claim
that fetch_article retries on an empty extraction result is false. The
retry predicate of the loop is raising, not emptiness; emptiness is only
handled by the caller's skip. -/
theorem fetch_empty_extraction_not_retried_cex :
    (fetch_article_retry
        (fun _ => AttemptResult.ok ⟨(""), none⟩)).attempts = 1 ∧
    (fetch_article_retry
        (fun _ => AttemptResult.ok ⟨(""), none⟩)).result =
      some ⟨(""), none⟩ ∧
    (fetch_article_retry
        (fun _ => AttemptResult.ok ⟨(""), none⟩)).sleeps = 0 :=
  ⟨rfl, rfl, rfl⟩

/-- Claim C7, amended: fetch_article runs at most RETRY_COUNT (3) attempts,
retrying only when the download/parse raises (network or parse error) and
sleeping once for RETRY_DELAY between consecutive attempts; an attempt
that returns without raising — even with an empty extraction — ends the
loop at once. After exhausting all retries (RETRY_COUNT attempts,
RETRY_COUNT - 1 sleeps) it returns none to the caller instead of
propagating an exception, and process_single_article treats a none fetch
result — as well as extracted text shorter than the 200-character
minimum — as skip-this-candidate. -/
theorem fetch_retry_bounded_and_caller_skips (oracle : Nat → AttemptResult)
    (env : Env) (sr : SearchResult) (task : SearchTask) (url : String)
    (article : FetchedArticle) (hl : sr.link = some url) :
    (fetch_article_retry oracle).attempts ≤ RETRY_COUNT ∧
    ((fetch_article_retry oracle).result = none →
      (fetch_article_retry oracle).attempts = RETRY_COUNT ∧
      (fetch_article_retry oracle).sleeps = RETRY_COUNT - 1) ∧
    (env.fetch_article url = none → process_single_article env sr task = none) ∧
    (env.fetch_article url = some article → article.text.length < 200 →
      process_single_article env sr task = none) := by
  refine ⟨?_, ?_, ?_, ?_⟩
  · rw [fetch_article_retry_spec oracle]
    cases h0 : oracle 0 <;> cases h1 : oracle 1 <;> cases h2 : oracle 2 <;>
      simp [RETRY_COUNT]
  · rw [fetch_article_retry_spec oracle]
    cases h0 : oracle 0 <;> cases h1 : oracle 1 <;> cases h2 : oracle 2 <;>
      simp [RETRY_COUNT]
  · intro hf
    unfold process_single_article
    simp only [hl]
    split
    · rfl
    · rw [hf]
  · intro hf hshort
    unfold process_single_article
    simp only [hl]
    split
    · rfl
    · simp only [hf]
      rw [if_pos (Or.inr hshort)]

/-- An attempt oracle that always raises. -/
def oracleRaise : Nat → AttemptResult := fun _ => AttemptResult.raised

theorem fetch_retry_bounded_witness :
    sr0.link = some ("http://example.org/a") ∧
    ((fetch_article_retry oracleRaise).attempts ≤ RETRY_COUNT ∧
     ((fetch_article_retry oracleRaise).result = none →
       (fetch_article_retry oracleRaise).attempts = RETRY_COUNT ∧
       (fetch_article_retry oracleRaise).sleeps = RETRY_COUNT - 1) ∧
     (envEvalNull.fetch_article ("http://example.org/a") = none →
       process_single_article envEvalNull sr0 task0 = none) ∧
     (envEvalNull.fetch_article ("http://example.org/a") = some artLong →
       artLong.text.length < 200 →
       process_single_article envEvalNull sr0 task0 = none)) :=
  ⟨rfl, fetch_retry_bounded_and_caller_skips oracleRaise envEvalNull sr0 task0
    ("http://example.org/a") artLong rfl⟩

/-- The url on which process_single_article invokes the Content Fetcher
(its fetch_article call site): exactly when the link is present, non-empty
and not blacklisted; [] when the candidate is dropped before any fetch.
This instruments the call site guard of process_single_article (the run of
code before env.fetch_article is consulted). -/
def process_single_article_fetches (sr : SearchResult) : List String :=
  match sr.link with
  | none => []
  | some url => if strEmpty url || is_url_blacklisted url then [] else [url]

/-- Result of one process_search_task call: the dedup set after the task,
the articles produced, and the urls on which the Content Fetcher ran. -/
structure TaskRun where
  existing : List String
  articles : List NewsArticle
  fetched : List String
deriving Repr, DecidableEq

/-- NewsScraper.process_search_task (src/main.py lines 439-454) over the
results one search returned: for each result whose link is truthy and not
yet in the dedup set, the link is added to the set first and the candidate
is then processed with process_single_article, collecting any produced
article; everything else is skipped before any expensive work. fetched
records the urls the Content Fetcher was invoked on. -/
def process_search_task (env : Env) (task : SearchTask) :
    List String → List SearchResult → TaskRun
  | existing, [] => ⟨existing, [], []⟩
  | existing, r :: rest =>
    match r.link with
    | some url =>
      if !strEmpty url && !(existing.contains url) then
        let existing1 := url :: existing
        let art := process_single_article env r task
        let fs := process_single_article_fetches r
        let restRun := process_search_task env task existing1 rest
        ⟨restRun.existing,
         (match art with
          | some a => a :: restRun.articles
          | none => restRun.articles),
         fs ++ restRun.fetched⟩
      else
        process_search_task env task existing rest
    | none => process_search_task env task existing rest

/-- Claim C4: a URL already present in the dedup set (in particular every
URL of the pre-seeded existing set loaded from the store) is never given to
the Content Fetcher by process_search_task: the membership check runs
before the fetch, and the set only grows, so a seeded URL is skipped before
any fetch, classification or scoring work. -/
theorem seeded_url_never_fetched (env : Env) (task : SearchTask)
    (results : List SearchResult) (existing : List String) (url : String)
    (h : url ∈ existing) :
    url ∉ (process_search_task env task existing results).fetched := by
  induction results generalizing existing with
  | nil => simp [process_search_task]
  | cons r rest ih =>
    cases hl : r.link with
    | none =>
      simp only [process_search_task, hl]
      exact ih existing h
    | some u =>
      simp only [process_search_task, hl]
      split
      next hcond =>
        have hc1 : existing.contains u = false := by
          cases hcu : existing.contains u with
          | false => rfl
          | true => rw [hcu] at hcond; simp at hcond
        have hne : url ≠ u := by
          intro he
          subst he
          have hc2 : existing.contains url = true := by
            simpa using h
          rw [hc2] at hc1
          cases hc1
        intro hmem
        have hmem2 : url ∈ process_single_article_fetches r ++
            (process_search_task env task (u :: existing) rest).fetched := hmem
        rcases List.mem_append.mp hmem2 with hin | hin
        · apply hne
          unfold process_single_article_fetches at hin
          simp only [hl] at hin
          split at hin
          · cases hin
          · exact List.mem_singleton.mp hin
        · exact ih (u :: existing) (List.mem_cons_of_mem u h) hin
      next hcond => exact ih existing h

/-- A pre-seeded dedup set already holding the example URL. -/
def seed0 : List String := [("http://example.org/a")]

theorem seeded_url_never_fetched_witness :
    ("http://example.org/a") ∈ seed0 ∧
    ("http://example.org/a") ∉
      (process_search_task envEvalNull task0 seed0 [sr0]).fetched :=
  ⟨List.mem_singleton.mpr rfl,
    seeded_url_never_fetched envEvalNull task0 [sr0] seed0
      ("http://example.org/a") (List.mem_singleton.mpr rfl)⟩

/-- The collection loop of NewsScraper.run (src/main.py lines 466-475): the
future of each task either yields its article list (extended into
all_articles) or raises, in which case the exception is caught at the task
boundary, logged, and contributes nothing — sibling outcomes are still
consumed. Outcomes are given in completion order; the payload of an error
is the logged message. -/
def collect_results : List (Except String (List NewsArticle)) → List NewsArticle
  | [] => []
  | Except.ok arts :: rest => arts ++ collect_results rest
  | Except.error _ :: rest => collect_results rest

/-- NewsScraper.run (src/main.py lines 456-488): collect every non-raising
task's articles and, when any were produced, submit them as one batch to
save_articles; returns the table and the saved count. -/
def run (db : DB) (outcomes : List (Except String (List NewsArticle))) :
    DB × Nat :=
  let all_articles := collect_results outcomes
  if all_articles.isEmpty then (db, 0) else save_articles db all_articles

theorem collect_results_append (xs ys : List (Except String (List NewsArticle))) :
    collect_results (xs ++ ys) = collect_results xs ++ collect_results ys := by
  induction xs with
  | nil => rfl
  | cons x rest ih =>
    cases x with
    | ok arts => simp [collect_results, ih]
    | error e => simp [collect_results, ih]

theorem mem_collect_results (outcomes : List (Except String (List NewsArticle)))
    (arts : List NewsArticle) (a : NewsArticle)
    (hok : Except.ok arts ∈ outcomes) (ha : a ∈ arts) :
    a ∈ collect_results outcomes := by
  induction outcomes with
  | nil => cases hok
  | cons o rest ih =>
    cases hok with
    | head => exact List.mem_append_left _ ha
    | tail _ hmem =>
      cases o with
      | ok arts2 => exact List.mem_append_right _ (ih hmem)
      | error e => exact ih hmem

/-- Claim C8: an exception raised while processing one task is absorbed at
the task boundary of the run loop: adding a failing task anywhere in the
batch leaves run's outcome unchanged (no cancellation, no abort), and every
article produced by a non-failing sibling is still submitted to the store,
its URL ending up persisted. -/
theorem task_failure_does_not_abort (db : DB)
    (pre post : List (Except String (List NewsArticle))) (msg : String)
    (arts : List NewsArticle) (a : NewsArticle)
    (hok : Except.ok arts ∈ pre ++ post) (ha : a ∈ arts) :
    run db (pre ++ Except.error msg :: post) = run db (pre ++ post) ∧
    a.url ∈ dbUrls (run db (pre ++ Except.error msg :: post)).1 := by
  have hco : collect_results (pre ++ Except.error msg :: post) =
      collect_results (pre ++ post) := by
    rw [collect_results_append, collect_results_append]
    rfl
  have hmem : a ∈ collect_results (pre ++ post) :=
    mem_collect_results (pre ++ post) arts a hok ha
  have hne : (collect_results (pre ++ post)).isEmpty = false := by
    cases hq : (collect_results (pre ++ post)).isEmpty with
    | false => rfl
    | true =>
      rw [List.isEmpty_iff] at hq
      rw [hq] at hmem
      cases hmem
  constructor
  · unfold run
    rw [hco]
  · unfold run
    simp only [hco, hne, Bool.false_eq_true, if_false]
    exact mem_dbUrls_save (collect_results (pre ++ post)) db a hmem

/-- A concrete article row. -/
def artA : NewsArticle :=
  ⟨("t"), ("http://x.example/p"), ("s"), ("d"), ("au"), ("sub"), ("cat"),
   ("sum"), ("kw"), 50, ("r")⟩

/-- A concrete successful task outcome. -/
def okOutcome : Except String (List NewsArticle) := Except.ok [artA]

theorem task_failure_does_not_abort_witness :
    okOutcome ∈ ([okOutcome] ++ []) ∧
    artA ∈ [artA] ∧
    (run ([] : DB) ([okOutcome] ++ Except.error ("boom") :: []) =
       run ([] : DB) ([okOutcome] ++ []) ∧
     artA.url ∈
       dbUrls (run ([] : DB) ([okOutcome] ++ Except.error ("boom") :: [])).1) :=
  ⟨List.mem_append_left _ (List.mem_singleton.mpr rfl),
   List.mem_singleton.mpr rfl,
   task_failure_does_not_abort ([] : DB) [okOutcome] [] ("boom")
     [artA] artA (List.mem_append_left _ (List.mem_singleton.mpr rfl))
     (List.mem_singleton.mpr rfl)⟩

/-- Program counter of one worker thread running the candidate-handling
body of process_search_task (src/main.py lines 447-450) for one shared URL
under the CPython GIL: `check` is the membership test
`url not in self.existing_urls`, `add` is `self.existing_urls.add(url)`,
`work` is the expensive processing; each step is one atomic set operation,
and a thread switch may occur between any two of them. -/
inductive PC where
  | check
  | add
  | work
  | done
deriving Repr, DecidableEq

/-- One worker: its next step and whether it has processed the URL. -/
structure Worker where
  pc : PC
  processed : Bool
deriving Repr, DecidableEq

/-- The shared dedup set plus the two workers that both discovered the same
previously unknown URL. -/
structure SysState where
  dedup : List String
  w1 : Worker
  w2 : Worker
deriving Repr, DecidableEq

/-- One atomic step of a worker: the membership check skips when the URL is
already claimed, otherwise proceeds to the (separate) add step, then to the
processing step. -/
def workerStep (url : String) (dedup : List String) (w : Worker) :
    List String × Worker :=
  match w.pc with
  | PC.check =>
    if dedup.contains url then (dedup, ⟨PC.done, w.processed⟩)
    else (dedup, ⟨PC.add, w.processed⟩)
  | PC.add => (url :: dedup, ⟨PC.work, w.processed⟩)
  | PC.work => (dedup, ⟨PC.done, true⟩)
  | PC.done => (dedup, w)

/-- Interleaving step: the scheduler picks worker 1 (true) or 2 (false). -/
def sysStep (url : String) (s : SysState) (who : Bool) : SysState :=
  if who then
    let r := workerStep url s.dedup s.w1
    ⟨r.1, r.2, s.w2⟩
  else
    let r := workerStep url s.dedup s.w2
    ⟨r.1, s.w1, r.2⟩

/-- Run a schedule (a list of scheduler picks) from a state. -/
def runSchedule (url : String) : SysState → List Bool → SysState
  | s, [] => s
  | s, who :: rest => runSchedule url (sysStep url s who) rest

/-- Both workers about to run the membership check; URL not yet known. -/
def initSys : SysState := ⟨[], ⟨PC.check, false⟩, ⟨PC.check, false⟩⟩

/-- Claim C9, counterexample: the membership check and the set add are two
separate atomic operations with no lock around the pair, so under the
schedule where both workers pass the check before either adds, both
workers process the same previously unknown URL — the add is not an atomic
claim, and "at most one of the two workers processes the URL" is false. -/
theorem dedup_race_both_process_cex :
    (runSchedule ("http://example.com/a") initSys
        [true, false, true, true, false, false]).w1.processed = true ∧
    (runSchedule ("http://example.com/a") initSys
        [true, false, true, true, false, false]).w2.processed = true :=
  ⟨rfl, rfl⟩

/-- Claim C9, amended: the early add narrows but does not close the race —
two concurrent tasks may both process a URL they discover simultaneously
(see the counterexample schedule); what does hold is the persistence-level
guarantee: because the store's batch insert skips any URL already present,
a table with unique URLs still has unique URLs after saving the duplicated
articles, and the raced URL ends up in exactly one persisted row. -/
theorem raced_url_persisted_once (db : DB) (arts : List NewsArticle)
    (a : NewsArticle) (h : (dbUrls db).Nodup) (ha : a ∈ arts) :
    (dbUrls (save_articles db arts).1).Nodup ∧
    a.url ∈ dbUrls (save_articles db arts).1 ∧
    (dbUrls (save_articles db arts).1).count a.url = 1 := by
  have hnd : (dbUrls (save_articles db arts).1).Nodup := by
    clear ha
    induction arts generalizing db with
    | nil => exact h
    | cons b rest ih =>
      show (dbUrls (save_articles (insertArticle db b).1 rest).1).Nodup
      apply ih
      unfold insertArticle
      split
      next => exact h
      next hnotmem =>
        rw [dbUrls_append]
        rw [List.nodup_append]
        exact ⟨h, List.nodup_singleton _, by simpa [List.disjoint_singleton] using hnotmem⟩
  have hmem := mem_dbUrls_save arts db a ha
  exact ⟨hnd, hmem, List.count_eq_one_of_mem hnd hmem⟩

theorem raced_url_persisted_once_witness :
    (dbUrls ([] : DB)).Nodup ∧
    artA ∈ [artA, artA] ∧
    ((dbUrls (save_articles ([] : DB) [artA, artA]).1).Nodup ∧
     artA.url ∈ dbUrls (save_articles ([] : DB) [artA, artA]).1 ∧
     (dbUrls (save_articles ([] : DB) [artA, artA]).1).count artA.url = 1) :=
  ⟨List.nodup_nil, List.mem_cons_self _ _,
    raced_url_persisted_once ([] : DB) [artA, artA] artA List.nodup_nil
      (List.mem_cons_self _ _)⟩

end AutoCollectNews
